import Mathlib

/-!
Verification development for the requirement-analysis / test-design pipeline
of `src/app.py`: the requirement parser (`parse_requirement`), the static
test-case catalog (`generate_tests`) and the tabular projection
(`df_from_tests`), embedded shallowly over `List Char` for the input text.
-/

set_option maxRecDepth 10000

namespace AppSpec

/-- The characters of a string, the carrier we run the parser on
(Python operates on `str`, which we model as `List Char`). -/
def strChars (s : String) : List Char := s.data

/-- Python's `text.lower()` (ASCII case folding, as `Char.toLower`). -/
def lowerChars (t : List Char) : List Char := t.map Char.toLower

/-- Python's `needle in hay` substring test, as a decidable proposition. -/
def substrOf (needle hay : List Char) : Prop := needle <:+: hay

instance (needle hay : List Char) : Decidable (substrOf needle hay) :=
  List.decidableInfix needle hay

/-- The `RequirementAnalysis` record produced by `parse_requirement`. -/
structure RequirementAnalysis where
  title : String
  actors : List String
  functional_tags : List String
  nonfunctional_tags : List String
  acceptance_criteria : List String
  impacted_modules : List String
  missing_info : List String
  clarifying_questions : List String
  risk : String
  risk_reason : String
  assumptions : List String
deriving DecidableEq

/-- `parse_requirement` from `src/app.py` lines 9-41: keyword checks on the
lowercased input text. -/
def parse_requirement (text : List Char) : RequirementAnalysis :=
  let text_l := lowerChars text
  let actors := ["User"] ++ (if substrOf (strChars "admin") text_l then ["Admin"] else [])
  let missing :=
    (if substrOf (strChars "password") text_l ∧ ¬ substrOf (strChars "complex") text_l then
      ["password complexity policy (inferred, confidence=0.84)"] else []) ++
    (if substrOf (strChars "lock") text_l ∧ ¬ substrOf (strChars "attempt") text_l then
      ["max failed attempts before lockout (inferred, confidence=0.81)"] else []) ++
    (if substrOf (strChars "otp") text_l ∧ ¬ substrOf (strChars "mandatory") text_l then
      ["otp mandatory policy (inferred, confidence=0.7)"] else [])
  { title := "Secure Login"
    actors := actors
    functional_tags :=
      ["authentication",
       if substrOf (strChars "otp") text_l then "otp" else "login",
       if substrOf (strChars "lock") text_l then "lockout" else "session"]
    nonfunctional_tags := ["security", "usability"]
    acceptance_criteria :=
      ["User can login with valid email and password",
       "Admin can enable OTP for login (inferred, confidence=0.78)",
       "Successful login redirects to dashboard"]
    impacted_modules := ["auth-service", "user-profile (inferred, confidence=0.62)"]
    missing_info :=
      if missing = [] then ["session timeout seconds (inferred, confidence=0.73)"] else missing
    clarifying_questions :=
      ["Should OTP be mandatory for all admins or per-tenant configurable?",
       "What is the lockout threshold and lockout duration?",
       "What password complexity rules apply (length, charset, reuse, history)?"]
    risk := "High"
    risk_reason :=
      "Auth and lockout flows are security-critical; ambiguity can cause bypass or lockout issues"
    assumptions := ["Email is unique username (inferred, confidence=0.65)"] }

/-- The default input sentence (`default_text`, `src/app.py` line 113). -/
def default_text : String :=
  "Users must login using email and password; admins can require OTP. Lock account after too many failures. Redirect to dashboard on success."

/-- One test-case record of the catalog in `generate_tests`. -/
structure TestCase where
  id : String
  title : String
  preconditions : List String
  steps : List String
  test_data : String
  expected : String
  risk : String
  automation_candidate : Bool
  automation_reason : String
deriving DecidableEq

/-- The risk tally (`summary` dict of `generate_tests`). -/
structure Summary where
  high : Nat
  medium : Nat
  low : Nat
deriving DecidableEq

/-- The `TestDesign` record returned by `generate_tests`. -/
structure TestDesign where
  test_cases : List TestCase
  summary : Summary
  assumptions : List String
deriving DecidableEq

/-- The fixed eight-entry literal catalog (`tests` local of `generate_tests`,
`src/app.py` lines 44-77). -/
def testsCatalog : List TestCase :=
  [{ id := "TC001", title := "Valid login without OTP",
     preconditions := ["OTP disabled for tenant"],
     steps := ["1. Open login page", "2. Enter valid email and password", "3. Click Login"],
     test_data := "TD01", expected := "User lands on dashboard", risk := "High",
     automation_candidate := true, automation_reason := "Stable UI flow; high reuse" },
   { id := "TC002", title := "Valid login with OTP",
     preconditions := ["OTP enabled for tenant", "User enrolled in OTP"],
     steps := ["1. Open login page", "2. Enter valid credentials",
               "3. Provide valid OTP within time window"],
     test_data := "TD02", expected := "Login succeeds and redirect to dashboard", risk := "High",
     automation_candidate := true, automation_reason := "API-based OTP stub possible" },
   { id := "TC003", title := "Invalid password",
     preconditions := [],
     steps := ["1. Open login page", "2. Enter valid email and invalid password",
               "3. Click Login"],
     test_data := "TD03", expected := "Error displayed; no login", risk := "Medium",
     automation_candidate := true, automation_reason := "Simple negative path" },
   { id := "TC004", title := "OTP timeout",
     preconditions := ["OTP enabled"],
     steps := ["1. Login with valid credentials", "2. Do not enter OTP",
               "3. Wait for timeout window to elapse"],
     test_data := "TD04", expected := "OTP expires; user prompted to resend", risk := "High",
     automation_candidate := true, automation_reason := "Can simulate clock or mock OTP" },
   { id := "TC005", title := "Account lockout after N failures",
     preconditions := ["Lockout policy configured (inferred, confidence=0.8)"],
     steps := ["1. Attempt login with invalid password N times",
               "2. Attempt login with valid password"],
     test_data := "TD05", expected := "Account is locked; login blocked", risk := "High",
     automation_candidate := false, automation_reason := "Lockout reset/stateful; may be slow" },
   { id := "TC006", title := "Boundary: password length min-1",
     preconditions := [],
     steps := ["1. Enter password at min length minus one", "2. Submit"],
     test_data := "TD06", expected := "Validation error", risk := "Low",
     automation_candidate := true, automation_reason := "Fast validation check" },
   { id := "TC007", title := "Exploratory: rapid successive logins",
     preconditions := [],
     steps := ["1. Attempt multiple rapid logins with valid and invalid data",
               "2. Observe responses and rate limits"],
     test_data := "TD07", expected := "System handles without instability", risk := "Medium",
     automation_candidate := false, automation_reason := "Exploratory; less deterministic" },
   { id := "TC008", title := "State transition: locked -> unlocked after duration",
     preconditions := ["Account locked"],
     steps := ["1. Wait lockout duration", "2. Attempt valid login"],
     test_data := "TD08", expected := "Account unlocks; login succeeds", risk := "Medium",
     automation_candidate := true, automation_reason := "Can fast-forward time with mocks" }]

/-- `generate_tests` from `src/app.py` lines 43-81: the static catalog, its
risk tally, and the requirement's assumptions copied through. -/
def generate_tests (requirement : RequirementAnalysis) : TestDesign :=
  let tests := testsCatalog
  { test_cases := tests
    summary :=
      { high := tests.countP (fun t => t.risk == "High")
        medium := tests.countP (fun t => t.risk == "Medium")
        low := tests.countP (fun t => t.risk == "Low") }
    assumptions := requirement.assumptions }

/-- One row of the table built by `df_from_tests`. -/
structure Row where
  id : String
  title : String
  preconditions : String
  steps : String
  test_data : String
  expected : String
  risk : String
  automation_candidate : Bool
  automation_reason : String
deriving DecidableEq

/-- `df_from_tests` from `src/app.py` lines 83-97: one row per test case,
with the list-valued fields joined into strings. -/
def df_from_tests (tests_json : TestDesign) : List Row :=
  tests_json.test_cases.map (fun t =>
    { id := t.id
      title := t.title
      preconditions := String.intercalate ("; ") t.preconditions
      steps := String.intercalate (" | ") t.steps
      test_data := t.test_data
      expected := t.expected
      risk := t.risk
      automation_candidate := t.automation_candidate
      automation_reason := t.automation_reason })

/-- The password-complexity missing-info message (`src/app.py` line 14). -/
def msgPassword : String := "password complexity policy (inferred, confidence=0.84)"

/-- The lockout-threshold missing-info message (`src/app.py` line 16). -/
def msgLockout : String := "max failed attempts before lockout (inferred, confidence=0.81)"

/-- The otp-mandatory missing-info message (`src/app.py` line 18). -/
def msgOtp : String := "otp mandatory policy (inferred, confidence=0.7)"

/-- The default session-timeout missing-info message (`src/app.py` line 36). -/
def msgDefault : String := "session timeout seconds (inferred, confidence=0.73)"

/-- Condition of the password-complexity message: "password" occurs in the
lowercased text and "complex" does not. -/
abbrev condPassword (t : List Char) : Prop :=
  substrOf (strChars "password") (lowerChars t) ∧ ¬ substrOf (strChars "complex") (lowerChars t)

/-- Condition of the lockout-threshold message: "lock" occurs in the
lowercased text and "attempt" does not. -/
abbrev condLockout (t : List Char) : Prop :=
  substrOf (strChars "lock") (lowerChars t) ∧ ¬ substrOf (strChars "attempt") (lowerChars t)

/-- Condition of the otp-mandatory message: "otp" occurs in the lowercased
text and "mandatory" does not. -/
abbrev condOtp (t : List Char) : Prop :=
  substrOf (strChars "otp") (lowerChars t) ∧ ¬ substrOf (strChars "mandatory") (lowerChars t)

/-- C1 counterexample: at the concrete requirement parsed from the empty
string, `generate(r).summary` is not high=5, medium=2, low=1. -/
theorem C1_summary_counterexample :
    ¬ (generate_tests (parse_requirement (strChars ""))).summary
        = { high := 5, medium := 2, low := 1 } := by
  decide

/-- C1 (amended): for every RequirementAnalysis record `r`,
`generate(r).summary` is high=4, medium=3, low=1, and each component is the
tally of the matching risk level over the catalog. -/
theorem C1_generate_summary (r : RequirementAnalysis) :
    (generate_tests r).summary = { high := 4, medium := 3, low := 1 } ∧
    (generate_tests r).summary.high =
      ((generate_tests r).test_cases.countP (fun t => t.risk == "High")) ∧
    (generate_tests r).summary.medium =
      ((generate_tests r).test_cases.countP (fun t => t.risk == "Medium")) ∧
    (generate_tests r).summary.low =
      ((generate_tests r).test_cases.countP (fun t => t.risk == "Low")) := by
  refine ⟨?_, rfl, rfl, rfl⟩
  show Summary.mk (testsCatalog.countP (fun t => t.risk == "High"))
      (testsCatalog.countP (fun t => t.risk == "Medium"))
      (testsCatalog.countP (fun t => t.risk == "Low")) = _
  decide

/-- C2 counterexample: on the default sentence, parse does not yield
missing_info equal to just the otp-mandatory message (two further conditions
fire), so the claimed conjunction fails. -/
theorem C2_default_counterexample :
    ¬ ((parse_requirement (strChars default_text)).actors = ["User", "Admin"] ∧
       (parse_requirement (strChars default_text)).functional_tags
         = ["authentication", "otp", "lockout"] ∧
       (parse_requirement (strChars default_text)).missing_info
         = ["otp mandatory policy (inferred, confidence=0.7)"]) := by
  decide

/-- C2 (amended): on the default sentence, parse yields actors
["User","Admin"], functional_tags ["authentication","otp","lockout"], and
missing_info equal to the password-complexity, lockout-threshold and
otp-mandatory messages in that order (the sentence contains "password"
without "complex" and "lock" without "attempt", so those conditions fire
too). -/
theorem C2_parse_default_text :
    (parse_requirement (strChars default_text)).actors = ["User", "Admin"] ∧
    (parse_requirement (strChars default_text)).functional_tags
      = ["authentication", "otp", "lockout"] ∧
    (parse_requirement (strChars default_text)).missing_info
      = [msgPassword, msgLockout, msgOtp] := by
  decide

/-- C3: for every input text, missing_info appends the fixed message for
each of the three conditions that holds, in order, and is exactly the single
default session-timeout message when none holds (the default is never
combined with a condition message). -/
theorem C3_missing_info_structure (t : List Char) :
    (parse_requirement t).missing_info =
      if ¬ condPassword t ∧ ¬ condLockout t ∧ ¬ condOtp t then [msgDefault]
      else
        (if condPassword t then [msgPassword] else []) ++
        (if condLockout t then [msgLockout] else []) ++
        (if condOtp t then [msgOtp] else []) := by
  by_cases h1 : condPassword t <;> by_cases h2 : condLockout t <;> by_cases h3 : condOtp t <;>
    simp only [condPassword, condLockout, condOtp] at h1 h2 h3 <;>
    simp [parse_requirement, condPassword, condLockout, condOtp,
      msgDefault, msgPassword, msgLockout, msgOtp, h1, h2, h3]

/-- C4: for every RequirementAnalysis record `r`, `generate(r).test_cases`
is the fixed catalog of 8 cases with ids TC001..TC008 in order (independent
of `r`), `generate(r).assumptions` copies `r.assumptions`, and exactly TC005
and TC007 have `automation_candidate = false`. -/
theorem C4_generate_tests_catalog (r : RequirementAnalysis) :
    (generate_tests r).test_cases = testsCatalog ∧
    (generate_tests r).test_cases.length = 8 ∧
    (generate_tests r).test_cases.map TestCase.id
      = ["TC001", "TC002", "TC003", "TC004", "TC005", "TC006", "TC007", "TC008"] ∧
    (generate_tests r).assumptions = r.assumptions ∧
    (generate_tests r).test_cases.map TestCase.automation_candidate
      = [true, true, true, true, false, true, false, true] :=
  ⟨rfl, rfl,
   by show testsCatalog.map TestCase.id = _ ; decide,
   rfl,
   by show testsCatalog.map TestCase.automation_candidate = _ ; decide⟩

/-- C5: for every input text, the first actor is "User", there are one or
two actors, and "Admin" is an actor exactly when "admin" occurs in the
lowercased text. -/
theorem C5_actors_spec (t : List Char) :
    (parse_requirement t).actors.head? = some "User" ∧
    ((parse_requirement t).actors.length = 1 ∨ (parse_requirement t).actors.length = 2) ∧
    ("Admin" ∈ (parse_requirement t).actors ↔ substrOf (strChars "admin") (lowerChars t)) := by
  by_cases h : substrOf (strChars "admin") (lowerChars t) <;>
    simp [parse_requirement, h]

/-- C6: for every input text, functional_tags is the 3-element sequence
whose first element is "authentication", whose second is "otp" when "otp"
occurs in the lowercased text and "login" otherwise, and whose third is
"lockout" when "lock" occurs and "session" otherwise. -/
theorem C6_functional_tags_spec (t : List Char) :
    (parse_requirement t).functional_tags =
      ["authentication",
       if substrOf (strChars "otp") (lowerChars t) then "otp" else "login",
       if substrOf (strChars "lock") (lowerChars t) then "lockout" else "session"] ∧
    (parse_requirement t).functional_tags.length = 3 :=
  ⟨rfl, rfl⟩

/-- C7: parse is total and always yields a fully-formed record (non-empty
actors and missing_info for every input); on the empty string it yields
actors ["User"], functional_tags ["authentication","login","session"], and
the single default session-timeout message. -/
theorem C7_parse_total_empty :
    (∀ t : List Char,
      (parse_requirement t).actors ≠ [] ∧ (parse_requirement t).missing_info ≠ []) ∧
    (parse_requirement (strChars "")).actors = ["User"] ∧
    (parse_requirement (strChars "")).functional_tags = ["authentication", "login", "session"] ∧
    (parse_requirement (strChars "")).missing_info = [msgDefault] := by
  refine ⟨fun t => ⟨?_, ?_⟩, by decide, by decide, by decide⟩
  · simp [parse_requirement]
  · by_cases h1 : condPassword t <;> by_cases h2 : condLockout t <;> by_cases h3 : condOtp t <;>
      simp only [condPassword, condLockout, condOtp] at h1 h2 h3 <;>
      simp [parse_requirement, h1, h2, h3]

/-- C8: the tabular projection produces one row per test case in order,
joining preconditions with "; " and steps with " | ", passing every scalar
field through unchanged; on any generated design the row ids are
TC001..TC008 in order. -/
theorem C8_df_from_tests_spec (d : TestDesign) :
    (df_from_tests d).length = d.test_cases.length ∧
    (df_from_tests d).map Row.id = d.test_cases.map TestCase.id ∧
    (df_from_tests d).map Row.title = d.test_cases.map TestCase.title ∧
    (df_from_tests d).map Row.preconditions
      = d.test_cases.map (fun t => String.intercalate ("; ") t.preconditions) ∧
    (df_from_tests d).map Row.steps
      = d.test_cases.map (fun t => String.intercalate (" | ") t.steps) ∧
    (df_from_tests d).map Row.test_data = d.test_cases.map TestCase.test_data ∧
    (df_from_tests d).map Row.expected = d.test_cases.map TestCase.expected ∧
    (df_from_tests d).map Row.risk = d.test_cases.map TestCase.risk ∧
    (df_from_tests d).map Row.automation_candidate
      = d.test_cases.map TestCase.automation_candidate ∧
    (df_from_tests d).map Row.automation_reason
      = d.test_cases.map TestCase.automation_reason ∧
    (∀ r : RequirementAnalysis, (df_from_tests (generate_tests r)).map Row.id
      = ["TC001", "TC002", "TC003", "TC004", "TC005", "TC006", "TC007", "TC008"]) := by
  have hlast : ∀ r : RequirementAnalysis, (df_from_tests (generate_tests r)).map Row.id
      = ["TC001", "TC002", "TC003", "TC004", "TC005", "TC006", "TC007", "TC008"] := by
    intro r
    have h : (generate_tests r).test_cases = testsCatalog := rfl
    simp only [df_from_tests, h]
    decide
  refine ⟨?_, ?_, ?_, ?_, ?_, ?_, ?_, ?_, ?_, ?_, hlast⟩ <;>
    simp [df_from_tests, List.map_map, Function.comp]

/-- C9: parse depends only on the lowercased input (so it is deterministic
and case-insensitive): inputs with equal lowercasings parse to equal
records. -/
theorem C9_parse_case_insensitive (t1 t2 : List Char)
    (h : lowerChars t1 = lowerChars t2) :
    parse_requirement t1 = parse_requirement t2 := by
  unfold parse_requirement
  rw [h]

/-- C9 witness: two concrete inputs differing only in letter case have equal
lowercasings and parse to equal records. -/
theorem C9_witness :
    lowerChars (strChars "ADMIN OTP Lock") = lowerChars (strChars "admin otp lock") ∧
    parse_requirement (strChars "ADMIN OTP Lock") = parse_requirement (strChars "admin otp lock") :=
  ⟨by decide,
   C9_parse_case_insensitive (strChars "ADMIN OTP Lock") (strChars "admin otp lock") (by decide)⟩

/-- C10: for every input text, missing_info has between 1 and 3 entries,
the default message only ever appears alone, and every entry is one of the
three condition messages or the default message. -/
theorem C10_missing_info_invariant (t : List Char) :
    1 ≤ (parse_requirement t).missing_info.length ∧
    (parse_requirement t).missing_info.length ≤ 3 ∧
    ((parse_requirement t).missing_info = [msgDefault] ∨
      msgDefault ∉ (parse_requirement t).missing_info) ∧
    (parse_requirement t).missing_info ⊆ [msgPassword, msgLockout, msgOtp, msgDefault] := by
  by_cases h1 : condPassword t <;> by_cases h2 : condLockout t <;> by_cases h3 : condOtp t <;>
    simp only [condPassword, condLockout, condOtp] at h1 h2 h3 <;>
    simp [parse_requirement, msgDefault, msgPassword, msgLockout, msgOtp, h1, h2, h3]

end AppSpec
